import Mathlib

/-!
Shallow embedding of `src/main.py` (FastAPI payment/subscription service).

Conventions of the embedding:
* The three SQLAlchemy tables become lists of rows inside a `DB` record;
  the unique columns (`users.email`, `subscriptions.subscription_code`,
  `payment_logs.reference`) are enforced by the insert functions, which
  return `none` where SQLAlchemy would raise `IntegrityError` at commit.
  As in SQL, a NULL value never collides with anything.
* Each route handler becomes a pure function from the current `DB`, the
  parsed request data, and the payment processor response (the handlers
  make at most one processor call per logical step, so the response is an
  input) to the new `DB` paired with either an `HErr` (an
  `HTTPException(status_code, detail)`) or the success payload.
* Python truthiness on nullable string columns (`if not user.email_token:`)
  is `truthy : Option String → Bool`, false exactly on `none` and `some ""`.
* Wall-clock timestamps (`datetime.utcnow()`) are abstracted to a `Nat`
  supplied per request; `json.dumps` of the event payload is abstracted to
  a string carried in the parsed payload.
* The webhook's HMAC-SHA512 digest of the raw body is abstracted to an
  opaque `computed : String` parameter: the handler only ever compares the
  header with it for string equality, so every property about the
  signature check is parametric in the digest value.
-/

/-- Python truthiness of a nullable string column: `None` and `""` are falsy. -/
def truthy : Option String → Bool
  | none => false
  | some s => !(s == "")

/-- Python `str.lower()` (the emails here are ASCII). -/
def pyLower (s : String) : String := ⟨s.data.map Char.toLower⟩

/-- Python `str.strip()`: drop leading and trailing whitespace. -/
def pyStrip (s : String) : String :=
  ⟨((s.data.dropWhile Char.isWhitespace).reverse.dropWhile Char.isWhitespace).reverse⟩

/-- Python `c in s` for a single character. -/
def pyContains (s : String) (c : Char) : Bool := s.data.any (fun x => x == c)

/-- Row of the `users` table (timestamp columns abstracted to `Nat`). -/
structure UserRow where
  email : String
  first_name : String
  last_name : String
  paystack_customer_code : Option String
  paystack_customer_id : Option Int
  authorization_code : Option String
  email_token : Option String
  first_authorization : Bool
  subscription_active : Bool
  subscription_code : Option String
  last_payment_date : Option Nat
  updated_at : Nat
deriving Repr, DecidableEq

/-- Row of the `subscriptions` table. -/
structure SubscriptionRow where
  email : String
  subscription_code : Option String
  plan_id : Option String
  status : Option String
  email_token : Option String
  next_payment_date : Option String
deriving Repr, DecidableEq

/-- Row of the `payment_logs` table. -/
structure PaymentLogRow where
  email : String
  reference : Option String
  amount : Option Int
  status : String
  event_type : String
  metadata_json : String
deriving Repr, DecidableEq

/-- The relational store: the three tables owned by the service. -/
structure DB where
  users : List UserRow
  subscriptions : List SubscriptionRow
  payment_logs : List PaymentLogRow
deriving Repr, DecidableEq

def DB.empty : DB := ⟨[], [], []⟩

/-- `db.query(User).filter(User.email == email).first()`. -/
def findUser (db : DB) (email : String) : Option UserRow :=
  db.users.find? (fun u => u.email == email)

/-- Committing a mutation of the ORM `User` object fetched by email:
the matching row is replaced by the mutated one. -/
def updateUser (db : DB) (email : String) (u : UserRow) : DB :=
  { db with users := db.users.map (fun x => if x.email == email then u else x) }

/-- `db.add(User(...)); db.commit()` under the unique constraint on `email`. -/
def insertUser (db : DB) (row : UserRow) : Option DB :=
  if db.users.any (fun u => u.email == row.email) then none
  else some { db with users := db.users ++ [row] }

/-- `db.add(Subscription(...)); db.commit()` under the unique constraint on
`subscription_code` (SQL: NULLs never collide). -/
def insertSubscription (db : DB) (row : SubscriptionRow) : Option DB :=
  match row.subscription_code with
  | none => some { db with subscriptions := db.subscriptions ++ [row] }
  | some c =>
    if db.subscriptions.any (fun s => s.subscription_code == some c) then none
    else some { db with subscriptions := db.subscriptions ++ [row] }

/-- `db.add(PaymentLog(...)); db.commit()` under the unique constraint on
`reference` (SQL: NULLs never collide). -/
def insertPaymentLog (db : DB) (row : PaymentLogRow) : Option DB :=
  match row.reference with
  | none => some { db with payment_logs := db.payment_logs ++ [row] }
  | some r =>
    if db.payment_logs.any (fun p => p.reference == some r) then none
    else some { db with payment_logs := db.payment_logs ++ [row] }

/-- `HTTPException(status_code, detail)`. -/
structure HErr where
  code : Nat
  detail : String
deriving Repr, DecidableEq

/-- `validate_email` (src/main.py:110-113): rejects when the string is empty
or lacks an `@` or a `.`, and returns the lower-cased, trimmed form. -/
def validate_email (email : String) : Except String String :=
  if email == "" || !(pyContains email '@') || !(pyContains email '.') then
    Except.error "Invalid email format"
  else Except.ok (pyStrip (pyLower email))

/-- Parsed JSON body of `POST /api/customers`. -/
structure CustomerBody where
  email : Option String
  first_name : Option String
  last_name : Option String
deriving Repr, DecidableEq

/-- Paystack response to `POST /customer`, reduced to the fields read. -/
structure CustomerResp where
  http_ok : Bool
  customer_code : Option String
  customer_id : Option Int
deriving Repr, DecidableEq

/-- Success payload of `create_customer`. -/
structure CCOk where
  email : String
  customer_code : Option String
deriving Repr, DecidableEq

/-- `create_customer` (src/main.py:129-195). Note that the handler calls
`validate_email(email)` but discards its return value: the stored email is
only `.strip()`-ed, never lower-cased. -/
def create_customer (db : DB) (body : CustomerBody) (resp : CustomerResp) (now : Nat) :
    DB × Except HErr CCOk :=
  let email := pyStrip (body.email.getD "")
  let first_name := pyStrip (body.first_name.getD "")
  let last_name := pyStrip (body.last_name.getD "")
  if email == "" || first_name == "" || last_name == "" then
    (db, Except.error ⟨400, "email, first_name, and last_name are required"⟩)
  else
    match validate_email email with
    | Except.error msg => (db, Except.error ⟨500, msg⟩)
    | Except.ok _ =>
      if (findUser db email).isSome then
        (db, Except.error ⟨400, "Customer already exists"⟩)
      else if !resp.http_ok then
        (db, Except.error ⟨400, "Failed to create customer on Paystack"⟩)
      else
        let row : UserRow :=
          { email := email, first_name := first_name, last_name := last_name
            paystack_customer_code := resp.customer_code
            paystack_customer_id := resp.customer_id
            authorization_code := none, email_token := none
            first_authorization := false, subscription_active := false
            subscription_code := none, last_payment_date := none, updated_at := now }
        match insertUser db row with
        | some db1 => (db1, Except.ok ⟨email, resp.customer_code⟩)
        | none => (db, Except.error ⟨500, "IntegrityError: duplicate email"⟩)

/-- Parsed JSON body of `POST /api/initialize-payment`. The handler only
reads `email`; `amount` and `channels` model extra fields a client might
send, which the handler never looks at. -/
structure InitBody where
  email : Option String
  amount : Option Int
  channels : Option (List String)
deriving Repr, DecidableEq

/-- The outbound JSON payload sent to `POST /transaction/initialize`. -/
structure OutboundInit where
  email : String
  amount : Int
  channels : List String
deriving Repr, DecidableEq

/-- Paystack response to `POST /transaction/initialize`. -/
structure InitResp where
  http_ok : Bool
  authorization_url : Option String
  access_code : Option String
  reference : Option String
deriving Repr, DecidableEq

/-- Success payload of `initialize_payment`, together with the outbound
processor payload the handler constructed. -/
structure InitOk where
  outbound : OutboundInit
  authorization_url : Option String
  access_code : Option String
  reference : Option String
deriving Repr, DecidableEq

/-- The payload built at src/main.py:212-220: fixed amount 8000 and a fixed
channel list, the email being the only request-derived field. -/
def init_outbound (email : String) : OutboundInit :=
  ⟨email, 8000, ["card", "bank", "ussd", "qr", "mobile_money"]⟩

/-- `initialize_payment` (src/main.py:198-247). Writes nothing locally. -/
def initialize_payment (db : DB) (body : InitBody) (resp : InitResp) :
    Except HErr InitOk :=
  let email := pyStrip (body.email.getD "")
  if email == "" then Except.error ⟨400, "email is required"⟩
  else
    match findUser db email with
    | none => Except.error ⟨404, "Customer not found. Create customer first."⟩
    | some _ =>
      if !resp.http_ok then Except.error ⟨400, "Failed to initialize payment"⟩
      else Except.ok ⟨init_outbound email, resp.authorization_url, resp.access_code, resp.reference⟩

/-- Parsed JSON body of `POST /api/verify-payment`. -/
structure VerifyBody where
  reference : Option String
deriving Repr, DecidableEq

/-- Paystack response to `GET /transaction/verify/:reference`, reduced to
the fields the handler reads. `customer_email = none` models a payload with
no `customer.email` key, where the subscript access raises `KeyError`. -/
structure VerifyResp where
  http_ok : Bool
  tx_status : Option String
  customer_email : Option String
  auth_code : Option String
  amount : Option Int
deriving Repr, DecidableEq

/-- Response body of `verify_payment`: the early `status: failed` return, or
the success payload. -/
inductive VerifyOut where
  | failed
  | verified (email : String) (reference : String)
deriving Repr, DecidableEq

/-- Stand-in for `json.dumps(authorization_data)`. -/
def dump_auth (auth_code : Option String) : String :=
  "authorization_code=" ++ auth_code.getD "null"

/-- The conditional user update of `verify_payment` (src/main.py:281-289),
committed on its own before the `PaymentLog` insert. -/
def verify_user_commit (db : DB) (ce : String) (resp : VerifyResp) (now : Nat) : DB :=
  match findUser db ce with
  | some user =>
    if truthy resp.auth_code then
      updateUser db ce
        { user with authorization_code := resp.auth_code
                    first_authorization := true, updated_at := now }
    else db
  | none => db

/-- The `PaymentLog(...)` row built by `verify_payment` (src/main.py:291-298). -/
def verifyLog (ce reference : String) (resp : VerifyResp) : PaymentLogRow :=
  { email := ce, reference := some reference, amount := resp.amount
    status := "success", event_type := "initial_payment"
    metadata_json := dump_auth resp.auth_code }

/-- `verify_payment` (src/main.py:250-316). The user update is committed on
its own (line 289) before the `PaymentLog` insert; a duplicate `reference`
makes that insert raise `IntegrityError` at commit, which the generic
handler turns into a 500 after rolling back only the staged insert. -/
def verify_payment (db : DB) (body : VerifyBody) (resp : VerifyResp) (now : Nat) :
    DB × Except HErr VerifyOut :=
  let reference := pyStrip (body.reference.getD "")
  if reference == "" then (db, Except.error ⟨400, "reference is required"⟩)
  else if !resp.http_ok then (db, Except.error ⟨400, "Failed to verify payment"⟩)
  else if !(resp.tx_status == some "success") then (db, Except.ok VerifyOut.failed)
  else
    match resp.customer_email with
    | none => (db, Except.error ⟨500, "Error verifying payment: KeyError"⟩)
    | some customer_email =>
      let db1 := verify_user_commit db customer_email resp now
      match insertPaymentLog db1 (verifyLog customer_email reference resp) with
      | some db2 => (db2, Except.ok (VerifyOut.verified customer_email reference))
      | none => (db1, Except.error ⟨500, "Error verifying payment: IntegrityError duplicate reference"⟩)

/-- Parsed JSON body of `POST /api/create-subscription`. -/
structure SubBody where
  email : Option String
deriving Repr, DecidableEq

/-- Paystack response to `POST /subscription`, reduced to the fields read:
the HTTP 2xx flag, the body `status` boolean, the error `message`, and the
`data` fields the handler copies into its rows. -/
structure SubCreateResp where
  http_ok : Bool
  status_flag : Bool
  message : Option String
  subscription_code : Option String
  plan : Option String
  sub_status : Option String
  next_payment_date : Option String
  email_token : Option String
deriving Repr, DecidableEq

/-- Success payload of `create_subscription`. -/
structure CSOk where
  email : String
  subscription_code : Option String
deriving Repr, DecidableEq

/-- The `Subscription(...)` row built from a processor subscription-create
response (src/main.py:365-372 and the identical webhook copy 493-500). -/
def subscription_row (email : String) (resp : SubCreateResp) : SubscriptionRow :=
  { email := email, subscription_code := resp.subscription_code
    plan_id := resp.plan, status := resp.sub_status
    email_token := resp.email_token, next_payment_date := resp.next_payment_date }

/-- The user mutation staged with the explicit subscription insert
(src/main.py:375-381). -/
def cs_user (user : UserRow) (resp : SubCreateResp) (now : Nat) : UserRow :=
  { user with subscription_active := true
              subscription_code := resp.subscription_code
              email_token :=
                if truthy resp.email_token then resp.email_token else user.email_token
              updated_at := now }

/-- `create_subscription` (src/main.py:319-400). The subscription insert and
the user mutation share one commit (line 383), so a failed insert leaves the
whole database unchanged. -/
def create_subscription (db : DB) (body : SubBody) (resp : SubCreateResp) (now : Nat) :
    DB × Except HErr CSOk :=
  let email := pyStrip (body.email.getD "")
  if email == "" then (db, Except.error ⟨400, "email is required"⟩)
  else
    match findUser db email with
    | none => (db, Except.error ⟨404, "Customer not found"⟩)
    | some user =>
      if !(truthy user.authorization_code) then
        (db, Except.error ⟨400, "Customer must complete initial payment first"⟩)
      else if !resp.http_ok then
        (db, Except.error ⟨400, resp.message.getD "Failed to create subscription"⟩)
      else if !resp.status_flag then
        (db, Except.error ⟨400, resp.message.getD "Paystack returned error"⟩)
      else
        match insertSubscription db (subscription_row email resp) with
        | none => (db, Except.error ⟨500, "Error creating subscription: IntegrityError"⟩)
        | some db1 =>
          (updateUser db1 email (cs_user user resp now), Except.ok ⟨email, resp.subscription_code⟩)

/-- Response of `GET /api/subscription-status/:email`. -/
inductive StatusOut where
  | not_found
  | found (subscription_active : Bool) (email : String)
      (subscription_code : Option String) (email_token : Option String)
deriving Repr, DecidableEq

/-- `check_subscription_status` (src/main.py:403-422): looks the user up by
`email.lower()` (no trim). -/
def check_subscription_status (db : DB) (email : String) : StatusOut :=
  match findUser db (pyLower email) with
  | none => StatusOut.not_found
  | some u => StatusOut.found u.subscription_active u.email u.subscription_code u.email_token

/-- Fields of a parsed webhook payload the handler reads. `customer_email`
is `data["customer"]["email"]` when `data["customer"]` is a dict carrying
one, else `none`; `data_json` stands for `json.dumps(data)`. -/
structure WebhookPayload where
  event : Option String
  customer_email : Option String
  auth_code : Option String
  reference : Option String
  amount : Option Int
  data_json : String
deriving Repr, DecidableEq

/-- Webhook acknowledgment body (always HTTP 200). -/
structure WebhookResp where
  status : String
  message : Option String
deriving Repr, DecidableEq

/-- The in-place `User` mutations of the webhook charge-success branch
(src/main.py:461-468) before the auto-create attempt. -/
def webhook_user_update (u : UserRow) (p : WebhookPayload) (now : Nat) : UserRow :=
  let u1 :=
    if truthy p.auth_code then
      { u with authorization_code := p.auth_code, first_authorization := true }
    else u
  { u1 with subscription_active := true, last_payment_date := some now, updated_at := now }

/-- The user mutation staged together with the webhook's subscription insert
(src/main.py:502-504). -/
def autocreate_user (u : UserRow) (resp : SubCreateResp) : UserRow :=
  { u with subscription_code := resp.subscription_code
           email_token := if truthy resp.email_token then resp.email_token else u.email_token }

/-- The webhook auto-create branch (src/main.py:471-507): runs only when the
user has a truthy `authorization_code` and no truthy `subscription_code`;
any exception inside (including an `IntegrityError` on the insert) is
swallowed, discarding the staged changes. -/
def webhook_autocreate (db : DB) (u : UserRow) (ce : String) (resp : SubCreateResp) :
    DB × UserRow :=
  if truthy u.authorization_code && !(truthy u.subscription_code) then
    if resp.http_ok && resp.status_flag then
      match insertSubscription db (subscription_row ce resp) with
      | some db1 =>
        let u1 := autocreate_user u resp
        (updateUser db1 ce u1, u1)
      | none => (db, u)
    else (db, u)
  else (db, u)

/-- The `PaymentLog` row appended by the webhook charge-success branch
(src/main.py:509-516) — note it is built whether or not a user was found. -/
def chargeLog (ce : String) (p : WebhookPayload) : PaymentLogRow :=
  { email := ce, reference := p.reference, amount := p.amount
    status := "success", event_type := "charge.success", metadata_json := p.data_json }

/-- The webhook's final `db.add(payment_log); db.commit()`: a duplicate
reference raises at commit, which the outer handler turns into a rollback
and a best-effort error acknowledgment (src/main.py:537-540). -/
def logCommit (db : DB) (row : PaymentLogRow) : DB × WebhookResp :=
  match insertPaymentLog db row with
  | some db1 => (db1, ⟨"ok", none⟩)
  | none => (db, ⟨"error", some "Webhook error: IntegrityError duplicate reference"⟩)

/-- `paystack_webhook` (src/main.py:425-540). `computed` is the recomputed
HMAC-SHA512 hex digest of the raw body under the shared secret; the handler
compares the `X-Paystack-Signature` header against it before anything else
touches the database. -/
def paystack_webhook (db : DB) (sig : Option String) (computed : String)
    (p : WebhookPayload) (subResp : SubCreateResp) (now : Nat) : DB × WebhookResp :=
  match sig with
  | none => (db, ⟨"error", some "Missing signature"⟩)
  | some s =>
    if !(s == computed) then (db, ⟨"error", some "Invalid signature"⟩)
    else if p.event == some "charge.success" then
      if !(truthy p.customer_email) then (db, ⟨"ok", some "No customer email found"⟩)
      else
        let ce := p.customer_email.getD ""
        let dbB :=
          match findUser db ce with
          | some u =>
            let u2 := webhook_user_update u p now
            (webhook_autocreate (updateUser db ce u2) u2 ce subResp).1
          | none => db
        logCommit dbB (chargeLog ce p)
    else if p.event == some "subscription.disable" || p.event == some "subscription.not_renew" then
      if !(truthy p.customer_email) then (db, ⟨"ok", some "No customer email found"⟩)
      else
        let ce := p.customer_email.getD ""
        match findUser db ce with
        | some u =>
          (updateUser db ce { u with subscription_active := false, updated_at := now },
           ⟨"ok", none⟩)
        | none => (db, ⟨"ok", none⟩)
    else (db, ⟨"ok", none⟩)

/-- Paystack response to `POST /subscription/disable`. -/
structure DisableResp where
  http_ok : Bool
  status_flag : Bool
  message : Option String
deriving Repr, DecidableEq

/-- The disable-token resolution of `cancel_subscription`
(src/main.py:556-561): the token on the `User` row if truthy, else the token
of the `Subscription` row matching the user's `subscription_code`, else the
(falsy) user token. -/
def cancel_token (db : DB) (user : UserRow) : Option String :=
  if truthy user.email_token then user.email_token
  else
    match db.subscriptions.find? (fun s => s.subscription_code == user.subscription_code) with
    | some sub => sub.email_token
    | none => user.email_token

/-- `cancel_subscription` (src/main.py:543-605): looks the user up by
`email.lower()`, requires a truthy `subscription_code`, resolves the disable
token from the user first and the matching `Subscription` row second, and on
processor success flips only `subscription_active` (and `updated_at`). -/
def cancel_subscription (db : DB) (email : String) (resp : DisableResp) (now : Nat) :
    DB × Except HErr String :=
  if email == "" then (db, Except.error ⟨400, "email is required"⟩)
  else
    match findUser db (pyLower email) with
    | none => (db, Except.error ⟨404, "Customer not found"⟩)
    | some user =>
      if !(truthy user.subscription_code) then
        (db, Except.error ⟨400, "No active subscription found"⟩)
      else
        let token := cancel_token db user
        if !(truthy token) then
          (db, Except.error ⟨400, "Missing email_token for subscription cancellation"⟩)
        else if !resp.http_ok then
          (db, Except.error ⟨400, "Failed to cancel subscription"⟩)
        else if !resp.status_flag then
          (db, Except.error ⟨400, resp.message.getD "Paystack returned error"⟩)
        else
          (updateUser db (pyLower email) { user with subscription_active := false, updated_at := now },
           Except.ok "Subscription cancelled successfully")

/-! Concrete fixtures used by the closed theorems below. -/

/-- A successful processor customer-create response. -/
def custRespOk : CustomerResp := ⟨true, some "CUS_1", some 1⟩

/-- Database after registering raw email `"A@B.com "` from an empty store. -/
def c1_db : DB :=
  (create_customer DB.empty ⟨some "A@B.com ", some "Jane", some "Doe"⟩ custRespOk 0).1

/-- A successful processor verification response for `jane@x.com`. -/
def respC2 : VerifyResp := ⟨true, some "success", some "jane@x.com", some "AUTH_1", some 8000⟩

/-- Database after one successful verification of reference `"ref_1"`. -/
def c2_db : DB := (verify_payment DB.empty ⟨some "ref_1"⟩ respC2 0).1

/-- A successful processor subscription-create response. -/
def subRespOk : SubCreateResp :=
  ⟨true, true, none, some "SUB_1", some "PLN_u6si72zqqto8dq0", some "active", none, some "TOK_1"⟩

/-- A registered, authorized, unsubscribed user. -/
def janeAuthorized : UserRow :=
  ⟨"jane@x.com", "Jane", "Doe", some "CUS_1", some 1, some "AUTH_1", none, true, false, none,
   none, 0⟩

/-- A `charge.success` webhook payload for `jane@x.com`. -/
def c3_payload : WebhookPayload :=
  ⟨some "charge.success", some "jane@x.com", some "AUTH_1", some "ref_w2", some 8000, "d"⟩

/-- A `charge.success` webhook payload whose customer email matches no user. -/
def c8_payload : WebhookPayload :=
  ⟨some "charge.success", some "ghost@x.com", some "AUTH_9", some "ref_w1", some 8000, "d"⟩

/-- A subscribed user carrying an `email_token`. -/
def janeSubscribed : UserRow :=
  ⟨"jane@x.com", "Jane", "Doe", some "CUS_1", some 1, some "AUTH_1", some "TOK_1", true, true,
   some "SUB_1", some 3, 3⟩

/-- A subscribed user with no `email_token` anywhere. -/
def janeNoToken : UserRow :=
  ⟨"jane@x.com", "Jane", "Doe", some "CUS_1", some 1, some "AUTH_1", none, true, true,
   some "SUB_1", some 3, 3⟩

/-- A successful processor subscription-disable response. -/
def disableRespOk : DisableResp := ⟨true, true, none⟩

/-- A registered user with no authorization code yet. -/
def janeNoAuth : UserRow :=
  ⟨"jane@x.com", "Jane", "Doe", some "CUS_1", some 1, none, none, false, false, none, none, 0⟩

/-- A `Subscription` row for `SUB_1` carrying no `email_token`. -/
def subNoToken : SubscriptionRow :=
  ⟨"jane@x.com", some "SUB_1", some "PLN_u6si72zqqto8dq0", some "active", none, none⟩

/-- A `Subscription` row for `SUB_1` that does carry an `email_token`. -/
def subWithToken : SubscriptionRow :=
  ⟨"jane@x.com", some "SUB_1", some "PLN_u6si72zqqto8dq0", some "active", some "TOK_1", none⟩

/-- Database after registering raw email `"a@b.com"` from an empty store. -/
def c7_db : DB :=
  (create_customer DB.empty ⟨some "a@b.com", some "Jane", some "Doe"⟩ custRespOk 0).1

/-! Structural lemmas about the store operations. -/

theorem updateUser_subscriptions (db : DB) (e : String) (u : UserRow) :
    (updateUser db e u).subscriptions = db.subscriptions := rfl

theorem updateUser_payment_logs (db : DB) (e : String) (u : UserRow) :
    (updateUser db e u).payment_logs = db.payment_logs := rfl

theorem insertPaymentLog_eq_some {db db1 : DB} {row : PaymentLogRow}
    (h : insertPaymentLog db row = some db1) :
    db1 = { db with payment_logs := db.payment_logs ++ [row] } := by
  unfold insertPaymentLog at h
  split at h
  · exact (Option.some.inj h).symm
  · split at h
    · exact absurd h (by simp)
    · exact (Option.some.inj h).symm

theorem insertPaymentLog_dup {r : String} (db : DB) (row : PaymentLogRow)
    (hr : row.reference = some r)
    (hdup : db.payment_logs.any (fun l => l.reference == some r) = true) :
    insertPaymentLog db row = none := by
  unfold insertPaymentLog
  rw [hr]
  simp [hdup]

theorem logCommit_subscriptions (db : DB) (row : PaymentLogRow) :
    (logCommit db row).1.subscriptions = db.subscriptions := by
  unfold logCommit
  cases h : insertPaymentLog db row with
  | none => rfl
  | some db1 => rw [insertPaymentLog_eq_some h]

theorem logCommit_users (db : DB) (row : PaymentLogRow) :
    (logCommit db row).1.users = db.users := by
  unfold logCommit
  cases h : insertPaymentLog db row with
  | none => rfl
  | some db1 => rw [insertPaymentLog_eq_some h]

theorem findUser_congr {db1 db2 : DB} (e : String) (h : db1.users = db2.users) :
    findUser db1 e = findUser db2 e := by
  unfold findUser; rw [h]

theorem findUser_some_email {db : DB} {e : String} {u : UserRow}
    (h : findUser db e = some u) : (u.email == e) = true := by
  unfold findUser at h
  have h2 := List.find?_some h
  exact h2

theorem find_map_update (l : List UserRow) (e : String) (u v : UserRow)
    (h : l.find? (fun x => x.email == e) = some u) (he : (v.email == e) = true) :
    (l.map (fun x => if x.email == e then v else x)).find? (fun x => x.email == e) = some v := by
  induction l with
  | nil => simp at h
  | cons a l ih =>
    simp only [List.map_cons]
    by_cases ha : (a.email == e) = true
    · simp only [if_pos ha]
      exact List.find?_cons_of_pos (p := fun (x : UserRow) => x.email == e) _ he
    · simp only [if_neg ha]
      rw [List.find?_cons_of_neg (p := fun (x : UserRow) => x.email == e) _ ha] at h
      rw [List.find?_cons_of_neg (p := fun (x : UserRow) => x.email == e) _ ha]
      exact ih h

theorem any_of_filter_length_pos {α : Type} (l : List α) (q : α → Bool)
    (h : 0 < (l.filter q).length) : l.any q = true := by
  rw [List.any_eq_true]
  have hne : l.filter q ≠ [] := by
    intro h0; rw [h0] at h; simp at h
  rcases List.exists_mem_of_ne_nil _ hne with ⟨x, hx⟩
  rcases List.mem_filter.mp hx with ⟨hxl, hxq⟩
  exact ⟨x, hxl, hxq⟩

/-! Lemmas about the webhook building blocks. -/

theorem webhook_user_update_email (u : UserRow) (p : WebhookPayload) (now : Nat) :
    (webhook_user_update u p now).email = u.email := by
  unfold webhook_user_update; split <;> rfl

theorem webhook_user_update_sub_code (u : UserRow) (p : WebhookPayload) (now : Nat) :
    (webhook_user_update u p now).subscription_code = u.subscription_code := by
  unfold webhook_user_update; split <;> rfl

theorem webhook_user_update_auth_truthy (u : UserRow) (p : WebhookPayload) (now : Nat)
    (h : truthy u.authorization_code = true) :
    truthy (webhook_user_update u p now).authorization_code = true := by
  unfold webhook_user_update
  split
  · next hc => simpa using hc
  · exact h

theorem autocreate_user_email (u : UserRow) (resp : SubCreateResp) :
    (autocreate_user u resp).email = u.email := rfl

theorem webhook_autocreate_skips (db : DB) (u : UserRow) (ce : String)
    (resp : SubCreateResp) (hsub : truthy u.subscription_code = true) :
    webhook_autocreate db u ce resp = (db, u) := by
  unfold webhook_autocreate
  simp [hsub]

theorem webhook_autocreate_fires (db : DB) (u : UserRow) (ce c : String)
    (resp : SubCreateResp)
    (hauth : truthy u.authorization_code = true)
    (hnosub : truthy u.subscription_code = false)
    (hhttp : resp.http_ok = true) (hflag : resp.status_flag = true)
    (hcode : resp.subscription_code = some c)
    (hfresh : db.subscriptions.any (fun s => s.subscription_code == some c) = false) :
    webhook_autocreate db u ce resp =
      (updateUser { db with subscriptions := db.subscriptions ++ [subscription_row ce resp] }
         ce (autocreate_user u resp),
       autocreate_user u resp) := by
  unfold webhook_autocreate insertSubscription
  simp [hauth, hnosub, hhttp, hflag, hcode, hfresh, subscription_row]

theorem paystack_webhook_charge_found (db : DB) (p : WebhookPayload)
    (subResp : SubCreateResp) (computed : String) (now : Nat) (u : UserRow) (ce : String)
    (hev : p.event = some "charge.success")
    (hce : p.customer_email = some ce) (hcene : (ce == "") = false)
    (hfind : findUser db ce = some u) :
    paystack_webhook db (some computed) computed p subResp now =
      logCommit (webhook_autocreate (updateUser db ce (webhook_user_update u p now))
          (webhook_user_update u p now) ce subResp).1 (chargeLog ce p) := by
  unfold paystack_webhook
  simp [hev, hce, hfind, truthy, hcene]

theorem paystack_webhook_charge_nouser (db : DB) (p : WebhookPayload)
    (subResp : SubCreateResp) (computed : String) (now : Nat) (ce : String)
    (hev : p.event = some "charge.success")
    (hce : p.customer_email = some ce) (hcene : (ce == "") = false)
    (hfind : findUser db ce = none) :
    paystack_webhook db (some computed) computed p subResp now =
      logCommit db (chargeLog ce p) := by
  unfold paystack_webhook
  simp [hev, hce, hfind, truthy, hcene]

/-- C4: a webhook request whose signature header is missing, or differs from
the HMAC-SHA512 digest of the exact raw body under the shared secret, is
rejected without raising: the handler returns an `error` status body and
leaves all three tables unchanged. -/
theorem C4_webhook_bad_signature_no_writes
    (db : DB) (sig : Option String) (computed : String) (p : WebhookPayload)
    (subResp : SubCreateResp) (now : Nat)
    (h : sig = none ∨ ∃ s, sig = some s ∧ (s == computed) = false) :
    (paystack_webhook db sig computed p subResp now).1 = db ∧
    (paystack_webhook db sig computed p subResp now).2.status = "error" := by
  rcases h with h | ⟨s, rfl, hs⟩
  · subst h; exact ⟨rfl, rfl⟩
  · unfold paystack_webhook
    simp [hs]

/-- Witness for C4 at a concrete store, payload and mismatched signature. -/
theorem C4_webhook_bad_signature_no_writes_witness :
    (paystack_webhook c2_db (some "bad") "good" c8_payload subRespOk 0).1 = c2_db ∧
    (paystack_webhook c2_db (some "bad") "good" c8_payload subRespOk 0).2.status = "error" :=
  C4_webhook_bad_signature_no_writes c2_db (some "bad") "good" c8_payload subRespOk 0
    (Or.inr ⟨"bad", rfl, by decide⟩)

/-- C3: for a user with a truthy `authorization_code` and no
`subscription_code`, one `charge.success` webhook (valid signature, processor
subscription-create succeeding with a fresh code) appends exactly one
`Subscription` row and sets `User.subscription_code`; replaying the
identical payload sequentially afterwards appends no second `Subscription`
row. -/
theorem C3_webhook_auto_subscription_exactly_once
    (db : DB) (p : WebhookPayload) (subResp : SubCreateResp) (computed : String)
    (now1 now2 : Nat) (u : UserRow) (ce c : String)
    (hev : p.event = some "charge.success")
    (hce : p.customer_email = some ce) (hcene : (ce == "") = false)
    (hfind : findUser db ce = some u)
    (hauth : truthy u.authorization_code = true)
    (hnosub : truthy u.subscription_code = false)
    (hhttp : subResp.http_ok = true) (hflag : subResp.status_flag = true)
    (hcode : subResp.subscription_code = some c) (hcne : (c == "") = false)
    (hfresh : db.subscriptions.any (fun s => s.subscription_code == some c) = false) :
    (paystack_webhook db (some computed) computed p subResp now1).1.subscriptions
        = db.subscriptions ++ [subscription_row ce subResp] ∧
    (∃ w, findUser (paystack_webhook db (some computed) computed p subResp now1).1 ce = some w ∧
        w.subscription_code = some c) ∧
    (paystack_webhook (paystack_webhook db (some computed) computed p subResp now1).1
        (some computed) computed p subResp now2).1.subscriptions
      = (paystack_webhook db (some computed) computed p subResp now1).1.subscriptions := by
  have hue : (u.email == ce) = true := findUser_some_email hfind
  have hu2e : ((webhook_user_update u p now1).email == ce) = true := by
    rw [webhook_user_update_email]; exact hue
  have hu2auth := webhook_user_update_auth_truthy u p now1 hauth
  have hu2sub : truthy (webhook_user_update u p now1).subscription_code = false := by
    rw [webhook_user_update_sub_code]; exact hnosub
  have hfreshA : ((updateUser db ce (webhook_user_update u p now1)).subscriptions.any
      (fun s => s.subscription_code == some c)) = false := by
    rw [updateUser_subscriptions]; exact hfresh
  have hfire := webhook_autocreate_fires (updateUser db ce (webhook_user_update u p now1))
    (webhook_user_update u p now1) ce c subResp hu2auth hu2sub hhttp hflag hcode hfreshA
  have hW1 := paystack_webhook_charge_found db p subResp computed now1 u ce hev hce hcene hfind
  rw [hfire] at hW1
  have h1 : (paystack_webhook db (some computed) computed p subResp now1).1.subscriptions
      = db.subscriptions ++ [subscription_row ce subResp] := by
    rw [hW1, logCommit_subscriptions]
    simp [updateUser_subscriptions, updateUser]
  have hu3e : ((autocreate_user (webhook_user_update u p now1) subResp).email == ce) = true := by
    rw [autocreate_user_email]; exact hu2e
  have h2find : findUser (paystack_webhook db (some computed) computed p subResp now1).1 ce
      = some (autocreate_user (webhook_user_update u p now1) subResp) := by
    rw [hW1, findUser_congr ce (logCommit_users _ _)]
    unfold findUser updateUser
    exact find_map_update _ ce (webhook_user_update u p now1)
      (autocreate_user (webhook_user_update u p now1) subResp)
      (find_map_update _ ce u (webhook_user_update u p now1) hfind hu2e) hu3e
  have hu3sub : truthy (autocreate_user (webhook_user_update u p now1) subResp).subscription_code
      = true := by
    show truthy subResp.subscription_code = true
    rw [hcode]; simp [truthy, hcne]
  have hu4sub : truthy (webhook_user_update
      (autocreate_user (webhook_user_update u p now1) subResp) p now2).subscription_code = true := by
    rw [webhook_user_update_sub_code]; exact hu3sub
  have hW2 := paystack_webhook_charge_found
    (paystack_webhook db (some computed) computed p subResp now1).1 p subResp computed now2
    (autocreate_user (webhook_user_update u p now1) subResp) ce hev hce hcene h2find
  rw [webhook_autocreate_skips _ _ _ _ hu4sub] at hW2
  have h3 : (paystack_webhook (paystack_webhook db (some computed) computed p subResp now1).1
      (some computed) computed p subResp now2).1.subscriptions
      = (paystack_webhook db (some computed) computed p subResp now1).1.subscriptions := by
    rw [hW2, logCommit_subscriptions, updateUser_subscriptions]
  refine ⟨h1, ⟨autocreate_user (webhook_user_update u p now1) subResp, h2find, ?_⟩, h3⟩
  show subResp.subscription_code = some c
  exact hcode

/-- Witness for C3: the authorized, unsubscribed `jane@x.com` receiving the
same `charge.success` payload twice. -/
theorem C3_webhook_auto_subscription_exactly_once_witness :
    (paystack_webhook ⟨[janeAuthorized], [], []⟩ (some "sig") "sig" c3_payload subRespOk 0).1.subscriptions
        = ([] : List SubscriptionRow) ++ [subscription_row "jane@x.com" subRespOk] ∧
    (∃ w, findUser (paystack_webhook ⟨[janeAuthorized], [], []⟩ (some "sig") "sig"
        c3_payload subRespOk 0).1 "jane@x.com" = some w ∧ w.subscription_code = some "SUB_1") ∧
    (paystack_webhook (paystack_webhook ⟨[janeAuthorized], [], []⟩ (some "sig") "sig"
        c3_payload subRespOk 0).1 (some "sig") "sig" c3_payload subRespOk 1).1.subscriptions
      = (paystack_webhook ⟨[janeAuthorized], [], []⟩ (some "sig") "sig"
          c3_payload subRespOk 0).1.subscriptions :=
  C3_webhook_auto_subscription_exactly_once ⟨[janeAuthorized], [], []⟩ c3_payload subRespOk
    "sig" 0 1 janeAuthorized "jane@x.com" "SUB_1" rfl rfl (by decide) (by decide) (by decide)
    (by decide) rfl rfl rfl (by decide) rfl

theorem verify_user_commit_logs (db : DB) (ce : String) (resp : VerifyResp) (now : Nat) :
    (verify_user_commit db ce resp now).payment_logs = db.payment_logs := by
  unfold verify_user_commit
  cases h : findUser db ce with
  | none => simp only [h]
  | some u => simp only [h]; split <;> rfl

/-- C2 counterexample: verifying reference `"ref_1"` a second time does fail
and leaves exactly one `PaymentLog` row, but the failure is the generic
`HTTPException(500, ...)` produced by the `IntegrityError` handler — an
internal server error, not the `Conflict` (4xx `DuplicateReference`) client
error the claim states. -/
theorem C2_counterexample_duplicate_verify_not_conflict :
    (verify_payment DB.empty ⟨some "ref_1"⟩ respC2 0).2
        = Except.ok (VerifyOut.verified "jane@x.com" "ref_1") ∧
    (verify_payment c2_db ⟨some "ref_1"⟩ respC2 1).2
        = Except.error ⟨500, "Error verifying payment: IntegrityError duplicate reference"⟩ ∧
    (verify_payment c2_db ⟨some "ref_1"⟩ respC2 1).1.payment_logs.length = 1 :=
  ⟨rfl, rfl, rfl⟩

/-- C2 (amended): once one `PaymentLog` row exists for a reference, a second
`VerifyCharge` of that reference fails — with the 500 internal error the
generic exception handler produces from the unique-constraint violation,
not a Conflict client error — and exactly one `PaymentLog` row for the
reference remains afterwards. -/
theorem C2_amended_duplicate_verify_500
    (db : DB) (body : VerifyBody) (resp : VerifyResp) (now : Nat) (ce : String)
    (hne : (pyStrip (body.reference.getD "") == "") = false)
    (hhttp : resp.http_ok = true)
    (hst : resp.tx_status = some "success")
    (hcem : resp.customer_email = some ce)
    (hcount : (db.payment_logs.filter
        (fun l => l.reference == some (pyStrip (body.reference.getD "")))).length = 1) :
    (verify_payment db body resp now).2
        = Except.error ⟨500, "Error verifying payment: IntegrityError duplicate reference"⟩ ∧
    ((verify_payment db body resp now).1.payment_logs.filter
        (fun l => l.reference == some (pyStrip (body.reference.getD "")))).length = 1 := by
  have hdup : db.payment_logs.any
      (fun l => l.reference == some (pyStrip (body.reference.getD ""))) = true :=
    any_of_filter_length_pos _ _ (by rw [hcount]; exact Nat.one_pos)
  have hdup1 : (verify_user_commit db ce resp now).payment_logs.any
      (fun l => l.reference == some (pyStrip (body.reference.getD ""))) = true := by
    rw [verify_user_commit_logs]; exact hdup
  have hins : insertPaymentLog (verify_user_commit db ce resp now)
      (verifyLog ce (pyStrip (body.reference.getD "")) resp) = none :=
    insertPaymentLog_dup _ _ rfl hdup1
  have hshape : verify_payment db body resp now
      = (verify_user_commit db ce resp now,
         Except.error ⟨500, "Error verifying payment: IntegrityError duplicate reference"⟩) := by
    unfold verify_payment
    simp [hne, hhttp, hst, hcem, hins]
  rw [hshape]
  exact ⟨rfl, by rw [verify_user_commit_logs]; exact hcount⟩

/-- Witness for the amended C2 at the concrete store holding one
`PaymentLog` row for `"ref_1"`. -/
theorem C2_amended_duplicate_verify_500_witness :
    (verify_payment c2_db ⟨some "ref_1"⟩ respC2 1).2
        = Except.error ⟨500, "Error verifying payment: IntegrityError duplicate reference"⟩ ∧
    ((verify_payment c2_db ⟨some "ref_1"⟩ respC2 1).1.payment_logs.filter
        (fun l => l.reference == some (pyStrip ((⟨some "ref_1"⟩ : VerifyBody).reference.getD "")))).length
      = 1 :=
  C2_amended_duplicate_verify_500 c2_db ⟨some "ref_1"⟩ respC2 1 "jane@x.com"
    (by decide) rfl rfl rfl (by decide)

theorem insertSubscription_fresh {c : String} (db : DB) (row : SubscriptionRow)
    (hcode : row.subscription_code = some c)
    (hfresh : db.subscriptions.any (fun s => s.subscription_code == some c) = false) :
    insertSubscription db row = some { db with subscriptions := db.subscriptions ++ [row] } := by
  unfold insertSubscription
  rw [hcode]
  simp [hfresh]

theorem cs_user_email (user : UserRow) (resp : SubCreateResp) (now : Nat) :
    (cs_user user resp now).email = user.email := rfl

/-- C5: for an existing user, `create_subscription` with an unset (falsy)
`authorization_code` fails with the 400 `AuthorizationRequired` error and
writes nothing; with a truthy `authorization_code` and a successful
processor response carrying a fresh code, it inserts one `Subscription` row
and sets `User.subscription_active = true` and `User.subscription_code`. -/
theorem C5_create_subscription_authorization_gate
    (db : DB) (body : SubBody) (resp : SubCreateResp) (now : Nat) (u : UserRow) (c : String)
    (hfind : findUser db (pyStrip (body.email.getD "")) = some u)
    (hne : (pyStrip (body.email.getD "") == "") = false) :
    (truthy u.authorization_code = false →
      create_subscription db body resp now
        = (db, Except.error ⟨400, "Customer must complete initial payment first"⟩)) ∧
    (truthy u.authorization_code = true → resp.http_ok = true → resp.status_flag = true →
      resp.subscription_code = some c →
      db.subscriptions.any (fun s => s.subscription_code == some c) = false →
      ∃ db1, create_subscription db body resp now
          = (db1, Except.ok ⟨pyStrip (body.email.getD ""), some c⟩) ∧
        db1.subscriptions
          = db.subscriptions ++ [subscription_row (pyStrip (body.email.getD "")) resp] ∧
        ∃ w, findUser db1 (pyStrip (body.email.getD "")) = some w ∧
          w.subscription_active = true ∧ w.subscription_code = some c) := by
  constructor
  · intro hA
    unfold create_subscription
    simp [hne, hfind, hA]
  · intro hA hH hF hC hFr
    have hins := insertSubscription_fresh db (subscription_row (pyStrip (body.email.getD "")) resp)
      (by simpa [subscription_row] using hC) hFr
    have hshape : create_subscription db body resp now
        = (updateUser
             { db with subscriptions :=
                 db.subscriptions ++ [subscription_row (pyStrip (body.email.getD "")) resp] }
             (pyStrip (body.email.getD "")) (cs_user u resp now),
           Except.ok ⟨pyStrip (body.email.getD ""), resp.subscription_code⟩) := by
      unfold create_subscription
      simp [hne, hfind, hA, hH, hF, hins]
    rw [hC] at hshape
    refine ⟨_, hshape, ?_, ?_⟩
    · rw [updateUser_subscriptions]
    · refine ⟨cs_user u resp now, ?_, rfl, by simp [cs_user, hC]⟩
      unfold findUser updateUser
      exact find_map_update _ _ u (cs_user u resp now) hfind
        (by rw [cs_user_email]; exact findUser_some_email hfind)

/-- Witness for C5: the same user before and after authorization. -/
theorem C5_create_subscription_authorization_gate_witness :
    (create_subscription ⟨[janeNoAuth], [], []⟩ ⟨some "jane@x.com"⟩ subRespOk 1
        = (⟨[janeNoAuth], [], []⟩,
           Except.error ⟨400, "Customer must complete initial payment first"⟩)) ∧
    (∃ db1, create_subscription ⟨[janeAuthorized], [], []⟩ ⟨some "jane@x.com"⟩ subRespOk 1
          = (db1, Except.ok ⟨"jane@x.com", some "SUB_1"⟩) ∧
        db1.subscriptions = [] ++ [subscription_row "jane@x.com" subRespOk] ∧
        ∃ w, findUser db1 "jane@x.com" = some w ∧
          w.subscription_active = true ∧ w.subscription_code = some "SUB_1") :=
  ⟨(C5_create_subscription_authorization_gate ⟨[janeNoAuth], [], []⟩ ⟨some "jane@x.com"⟩
      subRespOk 1 janeNoAuth "SUB_1" (by decide) (by decide)).1 (by decide),
   (C5_create_subscription_authorization_gate ⟨[janeAuthorized], [], []⟩ ⟨some "jane@x.com"⟩
      subRespOk 1 janeAuthorized "SUB_1" (by decide) (by decide)).2
      (by decide) rfl rfl rfl rfl⟩

theorem cancel_token_user (db : DB) (u : UserRow) (h : truthy u.email_token = true) :
    cancel_token db u = u.email_token := by
  unfold cancel_token
  simp [h]

/-- C6: when neither the `User` row nor the `Subscription` row matching the
user's `subscription_code` yields a truthy `email_token`,
`cancel_subscription` fails with the 400 `MissingToken` error and the store
— in particular the `User` row — is returned unchanged. -/
theorem C6_cancel_missing_token
    (db : DB) (email : String) (resp : DisableResp) (now : Nat) (u : UserRow)
    (hemail : (email == "") = false)
    (hfind : findUser db (pyLower email) = some u)
    (hsub : truthy u.subscription_code = true)
    (htok : truthy (cancel_token db u) = false) :
    cancel_subscription db email resp now
      = (db, Except.error ⟨400, "Missing email_token for subscription cancellation"⟩) := by
  unfold cancel_subscription
  simp [hemail, hfind, hsub, htok]

/-- Witness for C6: a subscribed user with no token on either row. -/
theorem C6_cancel_missing_token_witness :
    cancel_subscription ⟨[janeNoToken], [subNoToken], []⟩ "Jane@X.com" disableRespOk 5
      = (⟨[janeNoToken], [subNoToken], []⟩,
         Except.error ⟨400, "Missing email_token for subscription cancellation"⟩) :=
  C6_cancel_missing_token ⟨[janeNoToken], [subNoToken], []⟩ "Jane@X.com" disableRespOk 5
    janeNoToken (by decide) (by decide) (by decide) (by decide)

/-- C9: a successful `cancel_subscription` (token available — on the `User`
row or, by fallback, on the matching `Subscription` row — and processor
disable succeeding) sets `subscription_active = false` on the user row while
leaving `subscription_code` exactly as it was. -/
theorem C9_cancel_keeps_subscription_code
    (db : DB) (email : String) (resp : DisableResp) (now : Nat) (u : UserRow)
    (hemail : (email == "") = false)
    (hfind : findUser db (pyLower email) = some u)
    (hsub : truthy u.subscription_code = true)
    (htok : truthy (cancel_token db u) = true)
    (hhttp : resp.http_ok = true) (hflag : resp.status_flag = true) :
    ∃ db1, cancel_subscription db email resp now
        = (db1, Except.ok "Subscription cancelled successfully") ∧
      ∃ w, findUser db1 (pyLower email) = some w ∧
        w.subscription_active = false ∧ w.subscription_code = u.subscription_code := by
  have ht : truthy (cancel_token db u) = true := htok
  have hshape : cancel_subscription db email resp now
      = (updateUser db (pyLower email) { u with subscription_active := false, updated_at := now },
         Except.ok "Subscription cancelled successfully") := by
    unfold cancel_subscription
    simp [hemail, hfind, hsub, ht, hhttp, hflag]
  refine ⟨_, hshape, { u with subscription_active := false, updated_at := now }, ?_, rfl, rfl⟩
  unfold findUser updateUser
  have he := findUser_some_email hfind
  exact find_map_update _ _ u _ hfind he

/-- Witness for C9, exercising the fallback: the user row has no
`email_token`, the token lives only on the matching `Subscription` row, and
cancellation still keeps `SUB_1` in place. -/
theorem C9_cancel_keeps_subscription_code_witness :
    ∃ db1, cancel_subscription ⟨[janeNoToken], [subWithToken], []⟩ "Jane@X.com" disableRespOk 5
        = (db1, Except.ok "Subscription cancelled successfully") ∧
      ∃ w, findUser db1 (pyLower "Jane@X.com") = some w ∧
        w.subscription_active = false ∧ w.subscription_code = janeNoToken.subscription_code :=
  C9_cancel_keeps_subscription_code ⟨[janeNoToken], [subWithToken], []⟩ "Jane@X.com"
    disableRespOk 5 janeNoToken (by decide) (by decide) (by decide) (by decide) rfl rfl

theorem initialize_payment_ok_shape (db : DB) (body : InitBody) (resp : InitResp) (u : UserRow)
    (hne : (pyStrip (body.email.getD "") == "") = false)
    (hf : findUser db (pyStrip (body.email.getD "")) = some u)
    (hh : resp.http_ok = true) :
    initialize_payment db body resp
      = Except.ok ⟨init_outbound (pyStrip (body.email.getD "")),
          resp.authorization_url, resp.access_code, resp.reference⟩ := by
  unfold initialize_payment
  simp [hne, hf, hh]

/-- C10: the outbound payload of `initialize_payment` always carries the
fixed amount 8000 and the fixed channel list; the handler's result depends
on the request body only through its `email` field, and every successful
call's outbound payload is exactly `init_outbound` of the trimmed email. -/
theorem C10_initialize_payment_fixed_payload
    (db : DB) (body : InitBody) (resp : InitResp) :
    (init_outbound (pyStrip (body.email.getD ""))).amount = 8000 ∧
    (init_outbound (pyStrip (body.email.getD ""))).channels
        = ["card", "bank", "ussd", "qr", "mobile_money"] ∧
    (∀ body2 : InitBody, body2.email = body.email →
      initialize_payment db body2 resp = initialize_payment db body resp) ∧
    (∀ r, initialize_payment db body resp = Except.ok r →
      r.outbound = init_outbound (pyStrip (body.email.getD ""))) := by
  refine ⟨rfl, rfl, ?_, ?_⟩
  · intro body2 h2
    unfold initialize_payment
    rw [h2]
  · intro r h
    by_cases h1 : (pyStrip (body.email.getD "") == "") = true
    · unfold initialize_payment at h
      simp [h1] at h
    · have h1f : (pyStrip (body.email.getD "") == "") = false := by simpa using h1
      cases hf : findUser db (pyStrip (body.email.getD "")) with
      | none =>
        unfold initialize_payment at h
        simp [h1f, hf] at h
      | some u =>
        by_cases hh : resp.http_ok = true
        · rw [initialize_payment_ok_shape db body resp u h1f hf hh] at h
          have hX := Except.ok.inj h
          rw [← hX]
        · have hhf : resp.http_ok = false := by simpa using hh
          unfold initialize_payment at h
          simp [h1f, hf, hhf] at h

/-- Witness for C10: a body carrying a contrary amount and channel list. -/
theorem C10_initialize_payment_fixed_payload_witness :
    (init_outbound "jane@x.com").amount = 8000 ∧
    (init_outbound "jane@x.com").channels = ["card", "bank", "ussd", "qr", "mobile_money"] ∧
    (∀ body2 : InitBody, body2.email = some "jane@x.com" →
      initialize_payment ⟨[janeAuthorized], [], []⟩ body2 ⟨true, some "u", some "a", some "r"⟩
        = initialize_payment ⟨[janeAuthorized], [], []⟩ ⟨some "jane@x.com", some 99, some ["card"]⟩
            ⟨true, some "u", some "a", some "r"⟩) ∧
    (∀ r, initialize_payment ⟨[janeAuthorized], [], []⟩ ⟨some "jane@x.com", some 99, some ["card"]⟩
        ⟨true, some "u", some "a", some "r"⟩ = Except.ok r →
      r.outbound = init_outbound "jane@x.com") :=
  C10_initialize_payment_fixed_payload ⟨[janeAuthorized], [], []⟩
    ⟨some "jane@x.com", some 99, some ["card"]⟩ ⟨true, some "u", some "a", some "r"⟩

/-- C8 counterexample: a valid-signature `charge.success` webhook whose
customer email matches no user reports success but is not a no-op — the
handler appends a `PaymentLog` row (the insert at src/main.py:509-518 sits
outside the `if user:` block), so the store does change. -/
theorem C8_counterexample_unknown_user_writes_log :
    (paystack_webhook DB.empty (some "sig") "sig" c8_payload subRespOk 0).2.status = "ok" ∧
    (paystack_webhook DB.empty (some "sig") "sig" c8_payload subRespOk 0).1.payment_logs.length = 1 ∧
    (paystack_webhook DB.empty (some "sig") "sig" c8_payload subRespOk 0).1 ≠ DB.empty :=
  ⟨rfl, rfl, by decide⟩

/-- C8 (amended): on a valid-signature `charge.success` webhook, an absent
(falsy) customer email makes the handler a complete no-op reporting success;
an unknown customer email leaves `users` and `subscriptions` untouched and
reports success, but appends one `PaymentLog` row for the event. -/
theorem C8_amended_unknown_user_logs_payment
    (db : DB) (p : WebhookPayload) (subResp : SubCreateResp) (computed : String) (now : Nat)
    (hev : p.event = some "charge.success") :
    (truthy p.customer_email = false →
      paystack_webhook db (some computed) computed p subResp now
        = (db, ⟨"ok", some "No customer email found"⟩)) ∧
    (∀ ce db2, p.customer_email = some ce → (ce == "") = false →
      findUser db ce = none →
      insertPaymentLog db (chargeLog ce p) = some db2 →
      paystack_webhook db (some computed) computed p subResp now = (db2, ⟨"ok", none⟩) ∧
      db2.users = db.users ∧ db2.subscriptions = db.subscriptions ∧
      db2.payment_logs = db.payment_logs ++ [chargeLog ce p]) := by
  constructor
  · intro hno
    unfold paystack_webhook
    simp [hev, hno]
  · intro ce db2 hce hcene hfind hins
    have hsh := paystack_webhook_charge_nouser db p subResp computed now ce hev hce hcene hfind
    rw [hsh]
    unfold logCommit
    rw [hins]
    have he := insertPaymentLog_eq_some hins
    exact ⟨rfl, by rw [he], by rw [he], by rw [he]⟩

/-- Witness for the amended C8: an email-free payload, then an unknown user. -/
theorem C8_amended_unknown_user_logs_payment_witness :
    (paystack_webhook ⟨[janeAuthorized], [], []⟩ (some "sig") "sig"
        ⟨some "charge.success", none, none, some "ref_z", none, "d"⟩ subRespOk 0
      = (⟨[janeAuthorized], [], []⟩, ⟨"ok", some "No customer email found"⟩)) ∧
    (paystack_webhook DB.empty (some "sig") "sig" c8_payload subRespOk 0
        = (⟨[], [], [chargeLog "ghost@x.com" c8_payload]⟩, ⟨"ok", none⟩) ∧
      (⟨[], [], [chargeLog "ghost@x.com" c8_payload]⟩ : DB).users = DB.empty.users ∧
      (⟨[], [], [chargeLog "ghost@x.com" c8_payload]⟩ : DB).subscriptions = DB.empty.subscriptions ∧
      (⟨[], [], [chargeLog "ghost@x.com" c8_payload]⟩ : DB).payment_logs
        = DB.empty.payment_logs ++ [chargeLog "ghost@x.com" c8_payload]) :=
  ⟨(C8_amended_unknown_user_logs_payment ⟨[janeAuthorized], [], []⟩
      ⟨some "charge.success", none, none, some "ref_z", none, "d"⟩ subRespOk "sig" 0 rfl).1 rfl,
   (C8_amended_unknown_user_logs_payment DB.empty c8_payload subRespOk "sig" 0 rfl).2
      "ghost@x.com" ⟨[], [], [chargeLog "ghost@x.com" c8_payload]⟩ rfl (by decide) rfl rfl⟩

/-- C1: the claim that all lookups key the `users` table by the lower-cased,
trimmed email fails on the code. `create_customer` merely strips the raw
email — `validate_email`'s normalized return value is discarded at
src/main.py:140 — so registering `"A@B.com "` stores the row under
`"A@B.com"`, and the lookups for `"a@b.com"` (same normalized email) in
`initialize_payment`, `create_subscription`, `check_subscription_status`
and `cancel_subscription` all miss it. -/
theorem C1_code_bug_normalization_not_applied :
    (create_customer DB.empty ⟨some "A@B.com ", some "Jane", some "Doe"⟩ custRespOk 0).2
        = Except.ok ⟨"A@B.com", some "CUS_1"⟩ ∧
    c1_db.users.map UserRow.email = ["A@B.com"] ∧
    validate_email "A@B.com " = Except.ok "a@b.com" ∧
    validate_email "a@b.com" = Except.ok "a@b.com" ∧
    initialize_payment c1_db ⟨some "a@b.com", none, none⟩ ⟨true, none, none, none⟩
        = Except.error ⟨404, "Customer not found. Create customer first."⟩ ∧
    check_subscription_status c1_db "a@b.com" = StatusOut.not_found ∧
    create_subscription c1_db ⟨some "a@b.com"⟩ subRespOk 1
        = (c1_db, Except.error ⟨404, "Customer not found"⟩) ∧
    cancel_subscription c1_db "a@b.com" disableRespOk 1
        = (c1_db, Except.error ⟨404, "Customer not found"⟩) :=
  ⟨rfl, rfl, rfl, rfl, rfl, rfl, rfl, rfl⟩

/-- C7: the claim that a second registration under a different raw string
with the same normalized email fails with `Conflict` is violated by the
code: after registering `"a@b.com"`, registering `"A@B.com"` — the same
email after the lower-casing `validate_email` computes and discards —
succeeds and inserts a second `User` row. -/
theorem C7_code_bug_duplicate_after_case_change :
    (create_customer DB.empty ⟨some "a@b.com", some "Jane", some "Doe"⟩ custRespOk 0).2
        = Except.ok ⟨"a@b.com", some "CUS_1"⟩ ∧
    (create_customer c7_db ⟨some "A@B.com", some "John", some "Doe"⟩ custRespOk 1).2
        = Except.ok ⟨"A@B.com", some "CUS_1"⟩ ∧
    (create_customer c7_db ⟨some "A@B.com", some "John", some "Doe"⟩ custRespOk 1).1.users.length
        = 2 ∧
    validate_email "a@b.com" = validate_email "A@B.com" :=
  ⟨rfl, rfl, rfl, rfl⟩
